import Mathlib

/-!
Verification of `torch/utils/data/datapipes/iter/sampler.py`: shallow
embedding of `FilterIterDataPipe` and `SamplerIterDataPipe` and proofs of
their specified properties.
-/

namespace Torch

/-- Python exceptions raised by the two adapters. -/
inductive PyError where
  | notImplementedError : PyError
  | assertionError : String → PyError
  deriving DecidableEq

/-- A Python callable passed as `filter_fn`: its `__name__` attribute together
with the underlying function from an element and the pre-bound extra
positional/keyword arguments (bundled as one value of type `ε`) to a Bool. -/
structure PyCallable (α ε : Type) where
  name : String
  fn : α → ε → Bool

/-- State of a constructed `FilterIterDataPipe`: the upstream datapipe (a
restartable sequence, modelled as the list of elements it produces on each
fresh iteration request), the stored filter function, and the extra
positional/keyword arguments bound at construction (`self.args`,
`self.kwargs`, bundled as one value of type `ε`). -/
structure FilterIterDataPipe (α ε : Type) where
  datapipe : List α
  filter_fn : PyCallable α ε
  args : ε

/-- `FilterIterDataPipe.__init__`: stores the upstream datapipe, the filter
function and the extra arguments. The second component is `true` exactly when
the non-fatal lambda warning is emitted, i.e. when
`filter_fn.__name__ == '<lambda>'`. Construction never fails. -/
def FilterIterDataPipe.init (datapipe : List α) (args : ε)
    (filter_fn : PyCallable α ε) : FilterIterDataPipe α ε × Bool :=
  (⟨datapipe, filter_fn, args⟩, filter_fn.name == "<lambda>")

/-- Body of `FilterIterDataPipe.__iter__`:
`for data in self.datapipe: if self.filter_fn(data, *self.args, **self.kwargs): yield data`. -/
def filterIter (filter_fn : α → ε → Bool) (args : ε) : List α → List α
  | [] => []
  | data :: rest =>
      if filter_fn data args then data :: filterIter filter_fn args rest
      else filterIter filter_fn args rest

/-- Materializing one full iteration of the filter adapter. -/
def FilterIterDataPipe.iter (p : FilterIterDataPipe α ε) : List α :=
  filterIter p.filter_fn.fn p.args p.datapipe

/-- One `__iter__` call viewed as an operation on the adapter instance: it
creates a fresh generator over `self.datapipe` (materialized here) and leaves
the adapter's own state unchanged — no cursor is persisted on the instance. -/
def FilterIterDataPipe.iterCall (p : FilterIterDataPipe α ε) :
    List α × FilterIterDataPipe α ε :=
  (p.iter, p)

/-- `FilterIterDataPipe.__len__`: `raise(NotImplementedError)`. -/
def FilterIterDataPipe.len (_p : FilterIterDataPipe α ε) : Except PyError Nat :=
  .error .notImplementedError

/-- Result of calling a possibly-raising predicate: `.ok b` is a normal return
of `b`, `.error e` means the call raised the exception `e`. -/
def passes (r : Except σ Bool) : Bool :=
  match r with
  | .ok b => b
  | .error _ => false

/-- `FilterIterDataPipe.__iter__` when the predicate may raise: the generator
yields passing elements in order until the first raising call, whose exception
propagates unchanged (second component) and ends the iteration. -/
def filterIterExc (filter_fn : α → ε → Except σ Bool) (args : ε) :
    List α → List α × Option σ
  | [] => ([], none)
  | data :: rest =>
      match filter_fn data args with
      | .error e => ([], some e)
      | .ok b =>
          let r := filterIterExc filter_fn args rest
          (if b then data :: r.1 else r.1, r.2)

/-- An upstream datapipe for the sampler adapter: the elements it produces,
and whether the object implements `__len__` (`isinstance(datapipe, Sized)`).
When sized, its reported length is the number of its elements. -/
structure Pipe (α : Type) where
  elems : List α
  sized : Bool
  deriving DecidableEq

/-- A constructed sampling-strategy instance: the sequence its iteration
produces, and its reported `len(self.sampler)` when the instance implements
`__len__` (`none` when it is not `Sized`). The report is an `Int` because the
code explicitly guards `len(self.sampler) >= 0`. -/
structure SamplerInstance (α : Type) where
  iterOut : List α
  lenOpt : Option Int
  deriving DecidableEq

/-- Modelled from the spec: `SequentialSampler` is imported from
`torch.utils.data` and its code is not part of this fragment. Per the spec,
the default strategy "must reproduce the upstream's natural element order
(identity/sequential pass-through)" and its count is the upstream's count. -/
def SequentialSampler (data_source : Pipe α) (_kwargs : κ) : SamplerInstance α :=
  { iterOut := data_source.elems
    lenOpt := some (data_source.elems.length : Int) }

/-- State of a constructed `SamplerIterDataPipe`: the upstream datapipe and
the sampling-strategy instance built at construction. -/
structure SamplerIterDataPipe (α : Type) where
  datapipe : Pipe α
  sampler : SamplerInstance α
  deriving DecidableEq

/-- `SamplerIterDataPipe.__init__`: asserts that the upstream datapipe is
`Sized`, then instantiates the strategy with the upstream bound as its
`data_source` and the extra keyword arguments forwarded verbatim. -/
def SamplerIterDataPipe.init (datapipe : Pipe α)
    (sampler : Pipe α → κ → SamplerInstance α) (kwargs : κ) :
    Except PyError (SamplerIterDataPipe α) :=
  if datapipe.sized then
    .ok { datapipe := datapipe, sampler := sampler datapipe kwargs }
  else
    .error (.assertionError
      "Sampler class requires input datapipe implemented `__len__`")

/-- `SamplerIterDataPipe.__iter__`: `return iter(self.sampler)`. -/
def SamplerIterDataPipe.iter (p : SamplerIterDataPipe α) : List α :=
  p.sampler.iterOut

/-- `SamplerIterDataPipe.__len__`: returns `len(self.sampler)` when the
strategy instance is `Sized` and that length is non-negative, otherwise
raises `NotImplementedError`. -/
def SamplerIterDataPipe.len (p : SamplerIterDataPipe α) : Except PyError Int :=
  match p.sampler.lenOpt with
  | some n => if 0 ≤ n then .ok n else .error .notImplementedError
  | none => .error .notImplementedError

/-- The loop of `FilterIterDataPipe.__iter__` is exactly `List.filter` of the
predicate with the bound extra arguments. -/
theorem filterIter_eq_filter (fn : α → ε → Bool) (args : ε) (S : List α) :
    filterIter fn args S = S.filter (fun x => fn x args) := by
  induction S with
  | nil => rfl
  | cons x rest ih =>
      simp only [filterIter, List.filter_cons]
      cases h : fn x args <;> simp [h, ih]

/-- C1: materializing one full iteration of the filter adapter yields exactly
the subsequence of the upstream sequence whose elements satisfy the predicate
(with the bound extra arguments forwarded on every call), in original order,
and its length is at most the upstream length. -/
theorem filter_iter_materializes_subsequence (α ε : Type)
    (p : FilterIterDataPipe α ε) :
    p.iter = p.datapipe.filter (fun x => p.filter_fn.fn x p.args) ∧
    List.Sublist p.iter p.datapipe ∧
    p.iter.length ≤ p.datapipe.length := by
  have h := filterIter_eq_filter p.filter_fn.fn p.args p.datapipe
  refine ⟨h, ?_, ?_⟩
  · rw [FilterIterDataPipe.iter, h]
    exact List.filter_sublist p.datapipe
  · rw [FilterIterDataPipe.iter, h]
    exact List.length_filter_le _ p.datapipe

/-- C3: the filter adapter's `__len__` always raises `NotImplementedError`,
for every upstream datapipe and predicate; it never returns a value. -/
theorem filter_len_not_implemented (α ε : Type) (p : FilterIterDataPipe α ε) :
    p.len = Except.error PyError.notImplementedError ∧
    ∀ n : Nat, p.len ≠ Except.ok n := by
  exact ⟨rfl, fun n h => by simp [FilterIterDataPipe.len] at h⟩

/-- C7: for every callable predicate, construction of the filter adapter
succeeds, producing the adapter holding the given fields; the non-fatal
warning is emitted exactly when the predicate's declared name is the
anonymous-function name `<lambda>`. -/
theorem filter_init_succeeds_warns_iff_lambda (α ε : Type) (datapipe : List α)
    (args : ε) (filter_fn : PyCallable α ε) :
    (FilterIterDataPipe.init datapipe args filter_fn).1 =
      ⟨datapipe, filter_fn, args⟩ ∧
    ((FilterIterDataPipe.init datapipe args filter_fn).2 = true ↔
      filter_fn.name = "<lambda>") := by
  constructor
  · rfl
  · simp [FilterIterDataPipe.init]

/-- C8: the filter adapter keeps no cursor between iteration calls — a second
`__iter__` call on the instance returned unchanged by the first call yields
the same materialized sequence, and the instance state is still the
constructed state. -/
theorem filter_iter_restartable (α ε : Type) (p : FilterIterDataPipe α ε) :
    (p.iterCall.2.iterCall).1 = p.iterCall.1 ∧ (p.iterCall.2.iterCall).2 = p :=
  ⟨rfl, rfl⟩

/-- C9: filtering is idempotent — running a filter adapter with the same
predicate and arguments over the output of a first filter adapter yields the
same sequence as the first adapter alone. -/
theorem filter_iter_idempotent (α ε : Type) (p : FilterIterDataPipe α ε) :
    (FilterIterDataPipe.mk p.iter p.filter_fn p.args).iter = p.iter := by
  show filterIter p.filter_fn.fn p.args (filterIter p.filter_fn.fn p.args p.datapipe)
      = filterIter p.filter_fn.fn p.args p.datapipe
  simp [filterIter_eq_filter, List.filter_filter]

/-- C10: the sampler adapter's iteration is pure delegation — materializing
one iteration of the adapter yields exactly the sequence produced by
iterating its held strategy instance, unchanged. -/
theorem sampler_iter_delegates (α : Type) (p : SamplerIterDataPipe α) :
    p.iter = p.sampler.iterOut :=
  rfl

/-- C2: constructing the sampler adapter over a sized upstream with the
default strategy succeeds, materializes to exactly the upstream elements in
their original order, and its `__len__` returns the upstream length. -/
theorem sampler_default_sequential (α : Type) (datapipe : Pipe α)
    (h : datapipe.sized = true) :
    ∃ p : SamplerIterDataPipe α,
      SamplerIterDataPipe.init datapipe SequentialSampler () = Except.ok p ∧
      p.iter = datapipe.elems ∧
      p.len = Except.ok (datapipe.elems.length : Int) := by
  refine ⟨⟨datapipe, SequentialSampler datapipe ()⟩, ?_, rfl, ?_⟩
  · simp [SamplerIterDataPipe.init, h]
  · simp [SamplerIterDataPipe.len, SequentialSampler, Int.natCast_nonneg]

/-- Witness for C2 at a concrete sized upstream. -/
theorem sampler_default_sequential_witness :
    ∃ p : SamplerIterDataPipe Nat,
      SamplerIterDataPipe.init (⟨[10, 20, 30], true⟩ : Pipe Nat)
          SequentialSampler () = Except.ok p ∧
      p.iter = [10, 20, 30] ∧
      p.len = Except.ok (([10, 20, 30] : List Nat).length : Int) :=
  sampler_default_sequential Nat ⟨[10, 20, 30], true⟩ rfl

/-- C4: constructing the sampler adapter over an upstream that does not
implement `__len__` fails with the assertion error stating the requirement,
for every strategy constructor and keyword arguments. -/
theorem sampler_unsized_assertion_error (α κ : Type) (datapipe : Pipe α)
    (sampler : Pipe α → κ → SamplerInstance α) (kwargs : κ)
    (h : datapipe.sized = false) :
    SamplerIterDataPipe.init datapipe sampler kwargs =
      Except.error (PyError.assertionError
        "Sampler class requires input datapipe implemented `__len__`") := by
  simp [SamplerIterDataPipe.init, h]

/-- Witness for C4 at a concrete unsized upstream. -/
theorem sampler_unsized_assertion_error_witness :
    SamplerIterDataPipe.init (⟨[1, 2], false⟩ : Pipe Nat)
        SequentialSampler () =
      Except.error (PyError.assertionError
        "Sampler class requires input datapipe implemented `__len__`") :=
  sampler_unsized_assertion_error Nat Unit ⟨[1, 2], false⟩
    SequentialSampler () rfl

/-- C5: the sampler adapter's `__len__` returns the strategy's reported count
exactly when the strategy is sized and that count is non-negative, raises
`NotImplementedError` otherwise, and never consults the upstream datapipe
(two adapters holding the same strategy instance report the same length). -/
theorem sampler_len_delegates_to_strategy (α : Type)
    (p : SamplerIterDataPipe α) :
    (∀ n : Int, p.len = Except.ok n ↔ (p.sampler.lenOpt = some n ∧ 0 ≤ n)) ∧
    ((¬ ∃ n : Int, p.sampler.lenOpt = some n ∧ 0 ≤ n) ↔
      p.len = Except.error PyError.notImplementedError) ∧
    (∀ dp : Pipe α, (SamplerIterDataPipe.mk dp p.sampler).len = p.len) := by
  obtain ⟨dp0, s⟩ := p
  refine ⟨?_, ?_, fun dp => rfl⟩
  · intro n
    simp only [SamplerIterDataPipe.len]
    cases hs : s.lenOpt with
    | none => simp
    | some m =>
        by_cases hm : (0 : Int) ≤ m
        · simp only [hm, if_true, Except.ok.injEq, Option.some.injEq]
          omega
        · simp only [hm, if_false]
          constructor
          · intro hcon
            exact absurd hcon (by simp)
          · rintro ⟨heq, hn⟩
            rw [Option.some.injEq] at heq
            omega
  · simp only [SamplerIterDataPipe.len]
    cases hs : s.lenOpt with
    | none => simp
    | some m =>
        by_cases hm : (0 : Int) ≤ m
        · simp only [hm, if_true, Option.some.injEq]
          constructor
          · intro hcon
            exact absurd ⟨m, rfl, hm⟩ hcon
          · intro hcon
            exact absurd hcon (by simp)
        · simp only [hm, if_false, Option.some.injEq, iff_true]
          rintro ⟨n, heq, hn⟩
          omega

/-- Witness for C5: a concrete strategy reporting count 2 makes the adapter's
`__len__` return 2. -/
theorem sampler_len_delegates_to_strategy_witness :
    (SamplerIterDataPipe.mk (⟨[5, 6], true⟩ : Pipe Nat)
        ⟨[0, 1], some 2⟩).len = Except.ok 2 :=
  ((sampler_len_delegates_to_strategy Nat
      (SamplerIterDataPipe.mk ⟨[5, 6], true⟩ ⟨[0, 1], some 2⟩)).1 2).mpr
    ⟨rfl, by decide⟩

/-- C6: if the predicate raises on the k-th element (1-indexed) of the
upstream sequence and returns normally on every earlier element, iterating
the filter adapter yields exactly the passing elements among the first k−1
elements and then propagates that same exception, producing no further
elements. -/
theorem filter_iter_propagates_raise (α ε σ : Type)
    (fn : α → ε → Except σ Bool) (args : ε) (S : List α) (k : Nat) (a : α)
    (e : σ) (hk : 1 ≤ k) (hget : S.get? (k - 1) = some a)
    (hraise : fn a args = Except.error e)
    (hbefore : ∀ i : Nat, i < k - 1 → ∀ b : α, S.get? i = some b →
      ∃ c : Bool, fn b args = Except.ok c) :
    filterIterExc fn args S =
      ((S.take (k - 1)).filter (fun x => passes (fn x args)), some e) := by
  induction S generalizing k with
  | nil => simp at hget
  | cons x rest ih =>
      cases k with
      | zero => omega
      | succ k1 =>
          cases k1 with
          | zero =>
              simp only [Nat.sub_self, List.get?_cons_zero,
                Option.some.injEq] at hget
              subst hget
              simp [filterIterExc, hraise]
          | succ j =>
              have hstep : Nat.succ (Nat.succ j) - 1 = j + 1 := rfl
              rw [hstep] at hget hbefore ⊢
              rw [List.get?_cons_succ] at hget
              obtain ⟨c, hc⟩ := hbefore 0 (by omega) x (by simp)
              have hbefore' : ∀ i : Nat, i < j → ∀ b : α,
                  rest.get? i = some b → ∃ c : Bool, fn b args = Except.ok c :=
                fun i hi b hb =>
                  hbefore (i + 1) (by omega) b (by simpa using hb)
              have hrest := ih (j + 1) (by omega) hget hbefore'
              simp only [filterIterExc, hc]
              rw [hrest]
              simp only [List.take_succ_cons, List.filter_cons]
              have hp : passes (fn x args) = c := by rw [hc]; rfl
              rw [hp]
              cases c <;> simp

/-- Witness for C6: the predicate raises on the 3rd element of `[1,2,3,4]`;
the adapter yields the passing elements among the first two, then the
exception. -/
theorem filter_iter_propagates_raise_witness :
    filterIterExc
        (fun (x : Nat) (_u : Unit) =>
          if x = 3 then Except.error "boom" else Except.ok (x % 2 == 0))
        () [1, 2, 3, 4] =
      ([2], some "boom") := by
  have h := filter_iter_propagates_raise Nat Unit String
    (fun (x : Nat) (_u : Unit) =>
      if x = 3 then Except.error "boom" else Except.ok (x % 2 == 0))
    () [1, 2, 3, 4] 3 3 "boom" (by omega) (by decide) rfl
    (by
      intro i hi b hb
      match i, hi with
      | 0, _ =>
          simp only [List.get?_cons_zero, Option.some.injEq] at hb
          subst hb
          exact ⟨false, rfl⟩
      | 1, _ =>
          simp only [List.get?_cons_succ, List.get?_cons_zero,
            Option.some.injEq] at hb
          subst hb
          exact ⟨true, rfl⟩)
  rw [h]
  decide

end Torch
